import Mathlib

/-!
Verification development for the `travelopia/web-components` repository.

The repository ships a set of custom UI elements.  The slider subsystem
(`tp-slider`) is specified in `spec.md` and documented in
`src/slider/README.md`; its main implementation file is not part of the
source snapshot, so the slide-index state machine, the responsive resolver,
the gesture recognizer and the attribute parsing are modelled from the
specification text, as marked on each definition.  The multi-select widget
(`src/multi-select/tp-multi-select.ts`) and the slide element's
`connectedCallback` (shipped inside `src/lightbox/tp-lightbox-close.ts`)
are embedded directly from their TypeScript source.
-/

namespace Travelopia

/-! ## Slider: configuration and state (modelled from the spec) -/

/-- Modelled from the spec: the slide behaviour enum (`behaviour` attribute,
`slide` or `fade`, default `slide`). -/
inductive Behaviour where
  | slide
  | fade
deriving DecidableEq, Repr

/-- Modelled from the spec: the resolved `SliderConfig` record of section 3,
`{flexibleHeight, infinite, swipe, behaviour, autoSlideIntervalMs, perView,
step, swipeThresholdPx}`. -/
structure SliderConfig where
  flexibleHeight : Bool
  infinite : Bool
  swipe : Bool
  behaviour : Behaviour
  autoSlideIntervalMs : Option Nat
  perView : Nat
  step : Nat
  swipeThresholdPx : Nat
deriving DecidableEq, Repr

/-- Modelled from the spec: the lifecycle events `slide-set`,
`slide-complete` and `auto-slide-complete`, each carrying an index payload. -/
inductive SliderEvent where
  | slideSet (target : Nat)
  | slideComplete (committed : Nat)
  | autoSlideComplete (committed : Nat)
deriving DecidableEq, Repr

/-- Modelled from the spec: the part of `SliderState` that the slide-index
state machine reads and writes (`currentIndex`, `total`, the resolved
config). -/
structure SliderState where
  currentIndex : Nat
  total : Nat
  config : SliderConfig
deriving DecidableEq, Repr

/-- Modelled from the spec: the last valid start index `total - perView`
(natural subtraction, so configurations with `perView ≥ total` degrade to the
single position `0`). -/
def lastValidIndex (s : SliderState) : Nat :=
  s.total - s.config.perView

/-- Modelled from the spec: committing a resolved target index.  When the
slider has no slides every navigation operation is a no-op and no events
fire; when the target equals the current index nothing is emitted; otherwise
the index is updated and `slide-set` is emitted before `slide-complete`. -/
def commitIndex (s : SliderState) (target : Nat) : SliderState × List SliderEvent :=
  if s.total = 0 then (s, [])
  else if target = s.currentIndex then (s, [])
  else ({ s with currentIndex := target },
        [SliderEvent.slideSet target, SliderEvent.slideComplete target])

/-- Modelled from the spec: `next()` target computation — `currentIndex +
step`; if it exceeds `total - perView` then wrap to `0` when `infinite`,
else clamp to `total - perView`. -/
def nextTarget (s : SliderState) : Nat :=
  if lastValidIndex s < s.currentIndex + s.config.step then
    if s.config.infinite then 0 else lastValidIndex s
  else s.currentIndex + s.config.step

/-- Modelled from the spec: the public `next()` operation. -/
def nextOp (s : SliderState) : SliderState × List SliderEvent :=
  commitIndex s (nextTarget s)

/-- Modelled from the spec: `previous()` target computation — `currentIndex -
step`; if it is negative then wrap to `total - perView` when `infinite`,
else clamp to `0`. -/
def prevTarget (s : SliderState) : Nat :=
  if (s.currentIndex : Int) - (s.config.step : Int) < 0 then
    if s.config.infinite then lastValidIndex s else 0
  else ((s.currentIndex : Int) - (s.config.step : Int)).toNat

/-- Modelled from the spec: the public `previous()` operation. -/
def previousOp (s : SliderState) : SliderState × List SliderEvent :=
  commitIndex s (prevTarget s)

/-- Modelled from the spec: `setCurrentSlide(index)` target computation —
clamp `index` into `[0, total - perView]` unless `infinite`, in which case
wrap via modulo arithmetic over `total` (deterministic for negative and
overflowing inputs). -/
def setTarget (s : SliderState) (index : Int) : Nat :=
  if s.config.infinite then
    if s.total = 0 then 0 else (index % (s.total : Int)).toNat
  else
    min (max index 0).toNat (lastValidIndex s)

/-- Modelled from the spec: the public `setCurrentSlide(index)` operation. -/
def setCurrentSlide (s : SliderState) (index : Int) : SliderState × List SliderEvent :=
  commitIndex s (setTarget s index)

/-- Modelled from the spec: `getCurrentSlide()` is a pure read of
`currentIndex`. -/
def getCurrentSlide (s : SliderState) : Nat :=
  s.currentIndex

/-- Modelled from the spec: one firing of the auto-advance timer — it calls
`next()` (subject to the normal no-op/wrap rules) and, when the transition
committed, emits an additional `auto-slide-complete` after
`slide-complete`. -/
def autoTick (s : SliderState) : SliderState × List SliderEvent :=
  let r := nextOp s
  if r.2 = [] then r
  else (r.1, r.2 ++ [SliderEvent.autoSlideComplete r.1.currentIndex])

/-- Modelled from the spec: the triggers of a slide-index transition — the
public navigation operations and the auto-advance timer tick. -/
inductive SliderOp where
  | next
  | previous
  | set (index : Int)
  | tick
deriving DecidableEq, Repr

/-- Modelled from the spec: dispatch one transition trigger. -/
def runOp (op : SliderOp) (s : SliderState) : SliderState × List SliderEvent :=
  match op with
  | SliderOp.next => nextOp s
  | SliderOp.previous => previousOp s
  | SliderOp.set index => setCurrentSlide s index
  | SliderOp.tick => autoTick s

/-- The state reached after one `next()` call (event list dropped). -/
def nextState (s : SliderState) : SliderState :=
  (nextOp s).1

/-! ## Responsive resolver (modelled from the spec) -/

/-- Modelled from the spec: a media query evaluated against the viewport
width, as in the README examples `(min-width: 600px)`; both a lower and an
upper bound may be present. -/
structure MediaQuery where
  minWidth : Option Nat
  maxWidth : Option Nat
deriving DecidableEq, Repr

/-- Modelled from the spec: whether a media query matches the current
viewport width. -/
def mediaMatches (m : MediaQuery) (viewportWidth : Nat) : Bool :=
  (match m.minWidth with
   | some lo => decide (lo ≤ viewportWidth)
   | none => true)
  && (match m.maxWidth with
      | some hi => decide (viewportWidth ≤ hi)
      | none => true)

/-- Modelled from the spec: a `partial<SliderConfig>` — the per-field
overrides a responsive rule may carry; `none` means the field is not
specified by the rule. -/
structure ConfigOverrides where
  flexibleHeight : Option Bool
  infinite : Option Bool
  swipe : Option Bool
  behaviour : Option Behaviour
  autoSlideIntervalMs : Option (Option Nat)
  perView : Option Nat
  step : Option Nat
  swipeThresholdPx : Option Nat
deriving DecidableEq, Repr

/-- The overrides record that specifies no field. -/
def ConfigOverrides.empty : ConfigOverrides :=
  ⟨none, none, none, none, none, none, none, none⟩

/-- Modelled from the spec: a `ResponsiveRule` — a media query plus a set of
field overrides. -/
structure ResponsiveRule where
  media : MediaQuery
  overrides : ConfigOverrides
deriving DecidableEq, Repr

/-- Modelled from the spec: apply one rule's overrides on top of an
accumulating config, field by field; non-specified fields are untouched. -/
def applyOverrides (c : SliderConfig) (o : ConfigOverrides) : SliderConfig where
  flexibleHeight := o.flexibleHeight.getD c.flexibleHeight
  infinite := o.infinite.getD c.infinite
  swipe := o.swipe.getD c.swipe
  behaviour := o.behaviour.getD c.behaviour
  autoSlideIntervalMs := o.autoSlideIntervalMs.getD c.autoSlideIntervalMs
  perView := o.perView.getD c.perView
  step := o.step.getD c.step
  swipeThresholdPx := o.swipeThresholdPx.getD c.swipeThresholdPx

/-- Modelled from the spec: `resolve(rules, baseConfig, viewportWidth)` —
start from `baseConfig` and fold the rules in list order, applying the
overrides of every rule whose media query matches the viewport. -/
def resolve (rules : List ResponsiveRule) (baseConfig : SliderConfig)
    (viewportWidth : Nat) : SliderConfig :=
  rules.foldl
    (fun acc r =>
      if mediaMatches r.media viewportWidth then applyOverrides acc r.overrides else acc)
    baseConfig

/-! ## Attribute parsing (modelled from the spec) -/

/-- Modelled from the spec: parsing of the `per-view` / `step` integer
attributes — integer ≥ 1, default 1; zero or negative values degrade to the
default of 1. -/
def parsePositiveAttr (value : Option Int) : Nat :=
  match value with
  | none => 1
  | some n => if 1 ≤ n then n.toNat else 1

/-- Modelled from the spec: the outcome of JSON-decoding the `responsive`
attribute — the attribute may be absent, decode to a rule list, or be
malformed. -/
inductive ResponsiveAttr where
  | absent
  | ok (rules : List ResponsiveRule)
  | malformed
deriving DecidableEq, Repr

/-- Modelled from the spec: the rule list obtained from the `responsive`
attribute; a malformed JSON attribute is ignored (no rules), and must not
prevent the base configuration from applying. -/
def rulesOfAttr : ResponsiveAttr → List ResponsiveRule
  | ResponsiveAttr.ok rules => rules
  | _ => []

/-- Modelled from the spec: the raw string-encoded attribute set of the
slider element that feeds configuration resolution. -/
structure SliderAttrs where
  base : SliderConfig
  perViewAttr : Option Int
  stepAttr : Option Int
  responsive : ResponsiveAttr
deriving DecidableEq, Repr

/-- Modelled from the spec: the base config derived from the element's
direct attributes, with `per-view` and `step` parsed through the degrade
rule. -/
def baseConfigOfAttrs (a : SliderAttrs) : SliderConfig :=
  { a.base with
    perView := parsePositiveAttr a.perViewAttr
    step := parsePositiveAttr a.stepAttr }

/-- Modelled from the spec: the resolved configuration of the element at a
given viewport width — responsive rules applied on top of the base
attributes. -/
def resolvedConfig (a : SliderAttrs) (viewportWidth : Nat) : SliderConfig :=
  resolve (rulesOfAttr a.responsive) (baseConfigOfAttrs a) viewportWidth

/-! ## Gesture recognizer (modelled from the spec) -/

/-- Modelled from the spec: gesture resolution on drag end.  `delta = end.x -
dragStartPos.x`; a swipe is committed only if `|delta| ≤ swipeThresholdPx`
(the threshold is a maximum allowed distance); direction is the sign of
`delta` (negative → `next`, positive → `previous`).  A drag whose absolute
delta exceeds the threshold is a cancelled drag: snap back, no index change,
and the recognizer is disabled entirely when `swipe = false`. -/
def dragEnd (s : SliderState) (dragStartX endX : Int) : SliderState × List SliderEvent :=
  if s.config.swipe = false then (s, [])
  else
    let delta := endX - dragStartX
    if delta.natAbs ≤ s.config.swipeThresholdPx then
      if delta < 0 then nextOp s
      else if 0 < delta then previousOp s
      else (s, [])
    else (s, [])

/-! ## Layout height coordinator -/

/-- Embedded from `TPSliderSlideElement.connectedCallback` (shipped in
`src/lightbox/tp-lightbox-close.ts`): when the `ResizeObserver` API is
available, a resize observer is attached to the slide.  The callback reads
no configuration at all, so the count of observers attached to a slide on
connect depends only on API availability.  The resolved config is taken as
an argument to state that independence. -/
def observersAttachedOnConnect (_config : SliderConfig)
    (resizeObserverAvailable : Bool) : Nat :=
  if resizeObserverAvailable then 1 else 0

/-- The track's rendered height, as coordinated by the slider. -/
structure TrackState where
  height : Option Nat
deriving DecidableEq, Repr

/-- Modelled from the spec: the height-coordination reaction
(`TPSliderElement.handleResize`, not in the source snapshot) — when
`flexibleHeight = true` the track's rendered height is set to the active
slide's measured content height; when `flexibleHeight = false` height
coordination is disabled and the track is untouched. -/
def handleResize (config : SliderConfig) (activeSlideHeight : Nat)
    (track : TrackState) : TrackState :=
  if config.flexibleHeight then { height := some activeSlideHeight } else track

/-! ## Multi-select (embedded from `src/multi-select/tp-multi-select.ts`)

A `tp-multi-select-option` element is modelled by the attributes the
embedded methods read and write: `value` (`getAttribute` returns `none` when
absent), and the `disabled` / `selected` / `highlighted` flags, each of
which stands for the corresponding attribute comparing equal to `"yes"`. -/

structure MSOption where
  value : Option String
  disabled : Bool
  selected : Bool
  highlighted : Bool
deriving DecidableEq, Repr

/-- The highlight-relevant state of a `TPMultiSelectElement`: the
`currentlyHighlightedOption` field (a JS number, initially `-1`) and the
list of options returned by
`querySelectorAll('tp-multi-select-option:not([hidden="yes"])')`. -/
structure MSState where
  currentlyHighlightedOption : Int
  options : List MSOption
deriving DecidableEq, Repr

/-- The `while` loop of `highlightNextOption`: starting at `i`, skip over
disabled options while the index is below `options.length`.  The JS loop
guard checks the bound before the element access, so for a non-negative
start index it never reads out of bounds. -/
def skipDisabledFrom (opts : List MSOption) (i : Nat) : Nat :=
  if h : i < opts.length then
    if (opts.get ⟨i, h⟩).disabled then skipDisabledFrom opts (i + 1) else i
  else i
termination_by opts.length - i

/-- The `while` loop of `highlightPreviousOption`: starting at `i`, skip
over disabled options while the index is `≥ 0`.  The guard does not check
the upper bound, so a start index `≥ options.length` reads `undefined` and
the `getAttribute` call throws — modelled as `none`. -/
def skipDisabledDown (opts : List MSOption) (i : Int) : Option Int :=
  if _h : i < 0 then some i
  else
    match opts[i.toNat]? with
    | none => none
    | some o => if o.disabled then skipDisabledDown opts (i - 1) else some i
termination_by (i + 1).toNat
decreasing_by omega

/-- `options[i].removeAttribute('highlighted')` /
`options[i].setAttribute('highlighted', 'yes')`: writing the highlight flag
of the option at index `i`; an out-of-bounds index means the JS member
access throws (`none`). -/
def writeHighlightAt (opts : List MSOption) (i : Int) (b : Bool) :
    Option (List MSOption) :=
  if h : 0 ≤ i ∧ i.toNat < opts.length then
    some (opts.set i.toNat { opts.get ⟨i.toNat, h.2⟩ with highlighted := b })
  else none

/-- Embedded from `TPMultiSelectElement.highlightNextOption` (lines
326–360).  `querySelectorAll` never returns `null`, so the early-exit branch
of the source is dead and omitted.  The result is `none` exactly when the
method would throw on an out-of-bounds option access. -/
def highlightNextOption (s : MSState) : Option MSState :=
  let opts := s.options
  let start : Int := s.currentlyHighlightedOption + 1
  if start < 0 then none
  else
    let nextToBeHighlighted := skipDisabledFrom opts start.toNat
    if nextToBeHighlighted = opts.length then some s
    else
      match
        (if s.currentlyHighlightedOption ≠ -1 then
           writeHighlightAt opts s.currentlyHighlightedOption false
         else some opts) with
      | none => none
      | some opts1 =>
        match writeHighlightAt opts1 (nextToBeHighlighted : Int) true with
        | none => none
        | some opts2 =>
          some { currentlyHighlightedOption := (nextToBeHighlighted : Int),
                 options := opts2 }

/-- Embedded from `TPMultiSelectElement.highlightPreviousOption` (lines
365–399).  As in the source, the backward skip loop runs before the
highlight writes, and the removal of the old highlight is guarded by
`currentlyHighlightedOption !== 0`. -/
def highlightPreviousOption (s : MSState) : Option MSState :=
  let opts := s.options
  match skipDisabledDown opts (s.currentlyHighlightedOption - 1) with
  | none => none
  | some previousToBeHighlighted =>
    if previousToBeHighlighted < 0 then some s
    else
      match
        (if s.currentlyHighlightedOption ≠ 0 then
           writeHighlightAt opts s.currentlyHighlightedOption false
         else some opts) with
      | none => none
      | some opts1 =>
        match writeHighlightAt opts1 previousToBeHighlighted true with
        | none => none
        | some opts2 =>
          some { currentlyHighlightedOption := previousToBeHighlighted,
                 options := opts2 }

/-- The select-relevant state of a `TPMultiSelectElement`: the `multiple`
attribute and all `tp-multi-select-option` children. -/
structure MSElement where
  multiple : Option String
  options : List MSOption
deriving DecidableEq, Repr

/-- Embedded from `TPMultiSelectElement.unSelectAll` (lines 290–296): every
option's `selected` attribute is removed. -/
def unSelectAllOptions (opts : List MSOption) : List MSOption :=
  opts.map fun o => { o with selected := false }

/-- The option traversal of `TPMultiSelectElement.select` (lines 242–247):
every option matching `tp-multi-select-option[value="value"]` whose
`disabled` attribute is not `yes` gets `selected = "yes"`. -/
def selectMatchingOptions (opts : List MSOption) (value : String) : List MSOption :=
  opts.map fun o =>
    if o.value = some value then
      if o.disabled then o else { o with selected := true }
    else o

/-- Embedded from `TPMultiSelectElement.select` (lines 226–259), restricted
to the option state it mutates (the search-box, `open` attribute and
`update` side effects touch no option's `selected` flag).  In single-select
mode (`multiple` attribute equal to `no`) everything is unselected first,
and a blank value returns without selecting anything. -/
def select (el : MSElement) (value : String) : MSElement :=
  if el.multiple = some "no" then
    let el1 : MSElement := { el with options := unSelectAllOptions el.options }
    if value = "" then el1
    else { el1 with options := selectMatchingOptions el1.options value }
  else { el with options := selectMatchingOptions el.options value }

/-- Safety of one highlight call: the call returns without throwing
(`some s'`), the option list keeps its length, the resulting
`currentlyHighlightedOption` is again in `[-1, length)`, and any option
that became highlighted during the call is not disabled. -/
def HighlightOutcomeSafe (s : MSState) (result : Option MSState) : Prop :=
  ∃ s', result = some s' ∧
    s'.options.length = s.options.length ∧
    -1 ≤ s'.currentlyHighlightedOption ∧
    s'.currentlyHighlightedOption < (s'.options.length : Int) ∧
    ∀ (j : Nat) (o' o : MSOption), s'.options[j]? = some o' →
      s.options[j]? = some o →
      o'.highlighted = true → o.highlighted = false → o'.disabled = false

/-! ## Concrete instances used to exercise the model -/

/-- A base config: `infinite = no`, `swipe = yes`, `per-view = 2`,
`step = 2`, `swipe-threshold = 200`. -/
def cfgBase : SliderConfig :=
  ⟨false, false, true, Behaviour.slide, none, 2, 2, 200⟩

/-- The same config with `infinite = yes` and `step = 1`. -/
def cfgInfinite : SliderConfig :=
  ⟨false, true, true, Behaviour.slide, none, 2, 1, 200⟩

/-- Five slides, two per view, at the first slide. -/
def stBase : SliderState := ⟨0, 5, cfgBase⟩

/-- Five slides, two per view, at the last valid start index `3`. -/
def stBoundary : SliderState := ⟨3, 5, cfgBase⟩

/-- Infinite slider at the last valid start index. -/
def stInfEnd : SliderState := ⟨3, 5, cfgInfinite⟩

/-- Infinite slider at the first slide. -/
def stInfStart : SliderState := ⟨0, 5, cfgInfinite⟩

/-- A responsive rule: `(min-width: 300px)` overriding `per-view` to `2`. -/
def ruleA : ResponsiveRule :=
  ⟨⟨some 300, none⟩, { ConfigOverrides.empty with perView := some 2 }⟩

/-- A responsive rule: `(min-width: 600px)` overriding `per-view` to `4`. -/
def ruleB : ResponsiveRule :=
  ⟨⟨some 600, none⟩, { ConfigOverrides.empty with perView := some 4 }⟩

/-- An attribute set with negative `per-view`, zero `step` and a malformed
`responsive` JSON string. -/
def attrsMalformed : SliderAttrs :=
  ⟨cfgBase, some (-3), some 0, ResponsiveAttr.malformed⟩

/-- An enabled, unselected, unhighlighted option with value `a`. -/
def optA : MSOption := ⟨some "a", false, false, false⟩

/-- A disabled option with value `b`. -/
def optB : MSOption := ⟨some "b", true, false, false⟩

/-- An enabled option with value `c`. -/
def optC : MSOption := ⟨some "c", false, false, false⟩

/-- A multi-select with nothing highlighted yet. -/
def msStart : MSState := ⟨-1, [optA, optB, optC]⟩

/-- A single-select element (`multiple = no`) with `a` currently selected
and two options carrying value `b`, one of them disabled. -/
def elSingle : MSElement :=
  ⟨some "no", [⟨some "a", false, true, false⟩, ⟨some "b", false, false, false⟩,
               ⟨some "b", true, false, false⟩]⟩

/-! ## Basic lemmas on the slide-index state machine -/

lemma commitIndex_fst (s : SliderState) (t : Nat) :
    (commitIndex s t).1 = if s.total = 0 then s else { s with currentIndex := t } := by
  unfold commitIndex
  by_cases h1 : s.total = 0 <;> by_cases h2 : t = s.currentIndex <;> simp [h1, h2]

lemma commitIndex_config (s : SliderState) (t : Nat) :
    (commitIndex s t).1.config = s.config := by
  rw [commitIndex_fst]; split <;> rfl

lemma commitIndex_total (s : SliderState) (t : Nat) :
    (commitIndex s t).1.total = s.total := by
  rw [commitIndex_fst]; split <;> rfl

lemma commitIndex_currentIndex (s : SliderState) (t : Nat) (h : s.total ≠ 0) :
    (commitIndex s t).1.currentIndex = t := by
  rw [commitIndex_fst]; simp [h]

lemma commitIndex_noop (s : SliderState) (t : Nat) (h : t = s.currentIndex) :
    commitIndex s t = (s, []) := by
  unfold commitIndex
  by_cases h1 : s.total = 0 <;> simp [h1, h]

lemma lastValidIndex_commit (s : SliderState) (t : Nat) :
    lastValidIndex (commitIndex s t).1 = lastValidIndex s := by
  unfold lastValidIndex
  rw [commitIndex_total, commitIndex_config]

lemma nextState_config (s : SliderState) : (nextState s).config = s.config :=
  commitIndex_config s (nextTarget s)

lemma nextState_lastValid (s : SliderState) :
    lastValidIndex (nextState s) = lastValidIndex s :=
  lastValidIndex_commit s (nextTarget s)

lemma nextTarget_le (s : SliderState) (hinf : s.config.infinite = false) :
    nextTarget s ≤ lastValidIndex s := by
  unfold nextTarget
  rw [hinf]
  split
  · simp
  · omega

lemma nextState_cur_le (s : SliderState) (hinf : s.config.infinite = false)
    (h : s.currentIndex ≤ lastValidIndex s) :
    (nextState s).currentIndex ≤ lastValidIndex s := by
  unfold nextState nextOp
  rw [commitIndex_fst]
  split
  · exact h
  · simpa using nextTarget_le s hinf

/-! ## Claims about the slide-index state machine -/

/-- C1: with `infinite = false`, any number of `next()` calls keeps
`currentIndex ≤ total - perView`; a `next()` whose clamped target equals the
current index returns the state unchanged and emits no event; in particular
`next()` at the boundary `total - perView` is an idempotent no-op. -/
theorem slider_finite_next_never_overshoots (s : SliderState) (n : Nat)
    (hinf : s.config.infinite = false) (h : s.currentIndex ≤ lastValidIndex s) :
    (nextState^[n] s).currentIndex ≤ lastValidIndex s ∧
    (nextTarget s = s.currentIndex → nextOp s = (s, [])) ∧
    (s.currentIndex = lastValidIndex s → nextOp s = (s, [])) := by
  refine ⟨?_, fun ht => commitIndex_noop _ _ ht, fun hb => ?_⟩
  · induction n generalizing s with
    | zero => simpa using h
    | succ n ih =>
      rw [Function.iterate_succ_apply]
      have h2 : (nextState s).currentIndex ≤ lastValidIndex (nextState s) := by
        rw [nextState_lastValid]; exact nextState_cur_le s hinf h
      have h3 := ih (nextState s) (by rw [nextState_config]; exact hinf) h2
      rwa [nextState_lastValid] at h3
  · have ht : nextTarget s = s.currentIndex := by
      unfold nextTarget
      rw [hinf]
      split <;> simp <;> omega
    exact commitIndex_noop _ _ ht

/-- Witness for C1 on a concrete slider: five slides, two per view, step
two; five `next()` calls stay within the boundary `3`, and `next()` at the
boundary is a no-op with no events. -/
theorem slider_finite_next_never_overshoots_witness :
    (nextState^[5] stBase).currentIndex ≤ lastValidIndex stBase ∧
    nextOp stBoundary = (stBoundary, []) :=
  ⟨(slider_finite_next_never_overshoots stBase 5 rfl (by decide)).1,
   (slider_finite_next_never_overshoots stBoundary 0 rfl (by decide)).2.2 (by decide)⟩

/-- C2: with `infinite = true` (and a positive `step`, as guaranteed by
attribute parsing), `next()` from `total - perView` wraps the index to `0`,
and `previous()` from `0` wraps it to `total - perView`. -/
theorem slider_infinite_wraparound (s : SliderState)
    (hinf : s.config.infinite = true) (hstep : 1 ≤ s.config.step) :
    (s.currentIndex = s.total - s.config.perView →
       ((nextOp s).1).currentIndex = 0) ∧
    (s.currentIndex = 0 →
       ((previousOp s).1).currentIndex = s.total - s.config.perView) := by
  constructor
  · intro hb
    have hlt : lastValidIndex s < s.currentIndex + s.config.step := by
      unfold lastValidIndex; omega
    have ht : nextTarget s = 0 := by
      unfold nextTarget
      rw [if_pos hlt, hinf]
      simp
    unfold nextOp
    rw [ht, commitIndex_fst]
    split
    · unfold lastValidIndex at hlt; omega
    · rfl
  · intro hz
    have hlt : (s.currentIndex : Int) - (s.config.step : Int) < 0 := by omega
    have ht : prevTarget s = lastValidIndex s := by
      unfold prevTarget
      rw [if_pos hlt, hinf]
      simp
    unfold previousOp
    rw [ht, commitIndex_fst]
    split
    · omega
    · unfold lastValidIndex; rfl

/-- Witness for C2 on a concrete infinite slider: from index `3 = 5 - 2`,
`next()` lands on `0`; from index `0`, `previous()` lands on `3`. -/
theorem slider_infinite_wraparound_witness :
    ((nextOp stInfEnd).1).currentIndex = 0 ∧
    ((previousOp stInfStart).1).currentIndex =
      stInfStart.total - stInfStart.config.perView :=
  ⟨(slider_infinite_wraparound stInfEnd rfl (by decide)).1 (by decide),
   (slider_infinite_wraparound stInfStart rfl (by decide)).2 rfl⟩

/-- C3: `setCurrentSlide(i)` is a total operation, and a subsequent
`getCurrentSlide()` returns `i` reduced modulo `total` when
`infinite = true`, and `i` clamped into `[0, total - perView]` when
`infinite = false` — never the raw out-of-range `i`. -/
theorem slider_set_then_get (s : SliderState) (i : Int) (htot : 0 < s.total) :
    (s.config.infinite = true →
       (getCurrentSlide (setCurrentSlide s i).1 : Int) = i % (s.total : Int)) ∧
    (s.config.infinite = false →
       (getCurrentSlide (setCurrentSlide s i).1 : Int) =
         max 0 (min i (lastValidIndex s : Int))) := by
  have htot' : s.total ≠ 0 := Nat.pos_iff_ne_zero.mp htot
  constructor
  · intro hinf
    unfold getCurrentSlide setCurrentSlide
    rw [commitIndex_currentIndex _ _ htot']
    unfold setTarget
    rw [hinf]
    simp only [if_true, htot', if_false]
    rw [Int.toNat_of_nonneg (Int.emod_nonneg i (by exact_mod_cast htot'))]
  · intro hinf
    unfold getCurrentSlide setCurrentSlide
    rw [commitIndex_currentIndex _ _ htot']
    unfold setTarget
    rw [hinf]
    simp only [Bool.false_eq_true, if_false]
    push_cast [Int.toNat_of_nonneg (le_max_right i 0)]
    omega

/-- Witness for C3: on a five-slide infinite slider `setCurrentSlide(-7)`
then `getCurrentSlide()` yields `(-7) mod 5 = 3`; on a clamping slider
`setCurrentSlide(99)` yields the boundary `3`. -/
theorem slider_set_then_get_witness :
    (getCurrentSlide (setCurrentSlide stInfStart (-7)).1 : Int) =
      (-7) % (stInfStart.total : Int) ∧
    (getCurrentSlide (setCurrentSlide stBase 99).1 : Int) =
      max 0 (min 99 (lastValidIndex stBase : Int)) :=
  ⟨(slider_set_then_get stInfStart (-7) (by decide)).1 rfl,
   (slider_set_then_get stBase 99 (by decide)).2 rfl⟩

/-- C4 counterexample: at the clamped boundary the claimed equivalence
"index changes iff `|delta| ≤ threshold`" fails — a drag of `|delta| = 150`
against threshold `200` is accepted, yet `currentIndex` stays `3` because
the invoked `next()` is a boundary no-op. -/
theorem slider_swipe_commit_refuted :
    stBoundary.config.swipe = true ∧
    ((0 : Int) - 150).natAbs ≤ stBoundary.config.swipeThresholdPx ∧
    (dragEnd stBoundary 150 0).1.currentIndex = stBoundary.currentIndex ∧
    (dragEnd stBoundary 150 0).2 = [] := by decide

/-- C4 (amended): with swipe enabled, a gesture invokes the navigation
operation of the direction of `sign(delta)` — `next()` for `delta < 0`,
`previous()` for `delta > 0` — exactly when `delta ≠ 0` and
`|delta| ≤ swipeThresholdPx`; the invoked operation remains subject to the
state machine's clamp/wrap no-op rules, and a gesture with
`|delta| > swipeThresholdPx` (or `delta = 0`) is cancelled: no index change
and no events. -/
theorem slider_swipe_threshold_gate (s : SliderState) (a b : Int)
    (hsw : s.config.swipe = true) :
    (b - a < 0 → (b - a).natAbs ≤ s.config.swipeThresholdPx →
       dragEnd s a b = nextOp s) ∧
    (0 < b - a → (b - a).natAbs ≤ s.config.swipeThresholdPx →
       dragEnd s a b = previousOp s) ∧
    (s.config.swipeThresholdPx < (b - a).natAbs → dragEnd s a b = (s, [])) ∧
    (b - a = 0 → dragEnd s a b = (s, [])) := by
  refine ⟨fun hneg hle => ?_, fun hpos hle => ?_, fun hgt => ?_, fun h0 => ?_⟩ <;>
    · unfold dragEnd
      rw [hsw]
      simp only [Bool.true_eq_false, if_false]
      first
        | rw [if_pos ‹(b - a).natAbs ≤ s.config.swipeThresholdPx›, if_pos ‹b - a < 0›]
        | rw [if_pos ‹(b - a).natAbs ≤ s.config.swipeThresholdPx›,
              if_neg (by omega : ¬ b - a < 0), if_pos ‹0 < b - a›]
        | rw [if_neg (by omega : ¬ (b - a).natAbs ≤ s.config.swipeThresholdPx)]
        | rw [if_pos (by simp [‹b - a = 0›] : (b - a).natAbs ≤ s.config.swipeThresholdPx),
              if_neg (by omega : ¬ b - a < 0), if_neg (by omega : ¬ (0 : Int) < b - a)]

/-- Witness for the amended C4: a drag of `delta = -150` against threshold
`200` invokes `next()`, and a drag of `delta = -250` is cancelled. -/
theorem slider_swipe_threshold_gate_witness :
    dragEnd stBase 150 0 = nextOp stBase ∧ dragEnd stBase 250 0 = (stBase, []) :=
  ⟨(slider_swipe_threshold_gate stBase 150 0 rfl).1 (by decide) (by decide),
   (slider_swipe_threshold_gate stBase 250 0 rfl).2.2.1 (by decide)⟩

/-! ## Responsive resolver claims -/

lemma resolve_append_single (rules : List ResponsiveRule) (r : ResponsiveRule)
    (base : SliderConfig) (w : Nat) :
    resolve (rules ++ [r]) base w =
      if mediaMatches r.media w then applyOverrides (resolve rules base w) r.overrides
      else resolve rules base w := by
  unfold resolve
  rw [List.foldl_append]
  rfl

lemma resolve_no_match (base : SliderConfig) (w : Nat) :
    ∀ (rules : List ResponsiveRule),
      (∀ q ∈ rules, mediaMatches q.media w = false) → resolve rules base w = base := by
  intro rules
  induction rules with
  | nil => intro _; rfl
  | cons q qs ih =>
    intro hnone
    have hq := hnone q (List.mem_cons_self q qs)
    unfold resolve at *
    simp only [List.foldl_cons, hq, Bool.false_eq_true, if_false]
    exact ih fun p hp => hnone p (List.mem_cons_of_mem q hp)

/-- C5: `resolve` starts from `baseConfig` and folds the rules in list
order; it returns `baseConfig` when the rule list is empty or no rule
matches; a matching rule appended after the others wins on the fields it
overrides (last match wins per field) and leaves its unspecified fields at
the value accumulated so far. -/
theorem responsive_last_match_wins (base : SliderConfig) (w : Nat)
    (rules xs : List ResponsiveRule) (r : ResponsiveRule) (v : Nat) :
    (resolve [] base w = base) ∧
    ((∀ q ∈ rules, mediaMatches q.media w = false) → resolve rules base w = base) ∧
    (mediaMatches r.media w = false →
       resolve (xs ++ [r]) base w = resolve xs base w) ∧
    (mediaMatches r.media w = true → r.overrides.perView = some v →
       (resolve (xs ++ [r]) base w).perView = v) ∧
    (mediaMatches r.media w = true → r.overrides.perView = none →
       (resolve (xs ++ [r]) base w).perView = (resolve xs base w).perView) := by
  refine ⟨rfl, resolve_no_match base w rules, fun hm => ?_, fun hm hv => ?_, fun hm hv => ?_⟩
  · rw [resolve_append_single, if_neg (by simp [hm])]
  · rw [resolve_append_single, if_pos hm]
    simp [applyOverrides, hv]
  · rw [resolve_append_single, if_pos hm]
    simp [applyOverrides, hv]

/-- Witness for C5: with both `ruleA` (per-view 2) and `ruleB` (per-view 4)
matching at viewport width 700, the rule later in the list wins. -/
theorem responsive_last_match_wins_witness :
    (resolve ([ruleA] ++ [ruleB]) cfgBase 700).perView = 4 :=
  (responsive_last_match_wins cfgBase 700 [] [ruleA] ruleB 4).2.2.2.1 (by decide) rfl

/-! ## Event protocol claims -/

lemma commitIndex_cases (s : SliderState) (t : Nat) :
    commitIndex s t = (s, []) ∨
      (commitIndex s t =
         ({ s with currentIndex := t },
          [SliderEvent.slideSet t, SliderEvent.slideComplete t]) ∧
       t ≠ s.currentIndex ∧ s.total ≠ 0) := by
  unfold commitIndex
  by_cases h1 : s.total = 0 <;> by_cases h2 : t = s.currentIndex <;> simp [h1, h2]

lemma commit_protocol (s : SliderState) (t : Nat) :
    ((commitIndex s t).1.currentIndex = s.currentIndex → commitIndex s t = (s, [])) ∧
    ((commitIndex s t).1.currentIndex ≠ s.currentIndex →
       (commitIndex s t).2 =
         [SliderEvent.slideSet ((commitIndex s t).1.currentIndex),
          SliderEvent.slideComplete ((commitIndex s t).1.currentIndex)]) := by
  rcases commitIndex_cases s t with h | ⟨h, hne, _⟩ <;> rw [h]
  · simp
  · exact ⟨fun hc => absurd (by simpa using hc) hne, fun _ => rfl⟩

/-- C6: for every transition trigger, an outcome that leaves the index
unchanged returns the state untouched and emits no event at all, while an
index-changing outcome emits exactly `slide-set` then `slide-complete` (in
that order, one each), followed by one `auto-slide-complete` exactly when
the trigger was the auto-advance timer. -/
theorem slider_event_protocol (op : SliderOp) (s : SliderState) :
    ((runOp op s).1.currentIndex = s.currentIndex → runOp op s = (s, [])) ∧
    ((runOp op s).1.currentIndex ≠ s.currentIndex →
       (runOp op s).2 =
         [SliderEvent.slideSet ((runOp op s).1.currentIndex),
          SliderEvent.slideComplete ((runOp op s).1.currentIndex)] ++
         (if op = SliderOp.tick
          then [SliderEvent.autoSlideComplete ((runOp op s).1.currentIndex)]
          else [])) := by
  cases op with
  | next =>
    simp only [runOp, nextOp]
    refine ⟨(commit_protocol s (nextTarget s)).1, fun hne => ?_⟩
    rw [(commit_protocol s (nextTarget s)).2 hne]
    simp
  | previous =>
    simp only [runOp, previousOp]
    refine ⟨(commit_protocol s (prevTarget s)).1, fun hne => ?_⟩
    rw [(commit_protocol s (prevTarget s)).2 hne]
    simp
  | set i =>
    simp only [runOp, setCurrentSlide]
    refine ⟨(commit_protocol s (setTarget s i)).1, fun hne => ?_⟩
    rw [(commit_protocol s (setTarget s i)).2 hne]
    simp
  | tick =>
    simp only [runOp, autoTick, nextOp]
    rcases commitIndex_cases s (nextTarget s) with h | ⟨h, hne, _⟩ <;> rw [h]
    · simp
    · simp [hne]

/-- Witness for C6: an auto-advance tick on a concrete slider changes the
index and emits `slide-set`, `slide-complete`, `auto-slide-complete` in
order. -/
theorem slider_event_protocol_witness :
    (runOp SliderOp.tick stBase).2 =
      [SliderEvent.slideSet ((runOp SliderOp.tick stBase).1.currentIndex),
       SliderEvent.slideComplete ((runOp SliderOp.tick stBase).1.currentIndex)] ++
      (if SliderOp.tick = SliderOp.tick
       then [SliderEvent.autoSlideComplete ((runOp SliderOp.tick stBase).1.currentIndex)]
       else []) :=
  (slider_event_protocol SliderOp.tick stBase).2 (by decide)

/-! ## Error-handling claims -/

lemma parsePositiveAttr_pos (v : Option Int) : 1 ≤ parsePositiveAttr v := by
  cases v with
  | none => simp [parsePositiveAttr]
  | some n =>
    simp only [parsePositiveAttr]
    split <;> omega

/-- C7: all the user-facing misuse cases degrade safely (every modelled
operation is a total function, so none can throw): a malformed `responsive`
attribute is ignored and the base configuration still applies; zero or
negative `per-view`/`step` attributes parse to the default `1`; an
out-of-range `setCurrentSlide` index is clamped into range; and on a slider
with no slides every navigation trigger is a no-op that emits no event. -/
theorem slider_misuse_degrades_safely (a : SliderAttrs) (w : Nat) (v : Int)
    (s : SliderState) (i : Int) (op : SliderOp) :
    (a.responsive = ResponsiveAttr.malformed →
       resolvedConfig a w = baseConfigOfAttrs a) ∧
    (v ≤ 0 → parsePositiveAttr (some v) = 1) ∧
    (1 ≤ (baseConfigOfAttrs a).perView ∧ 1 ≤ (baseConfigOfAttrs a).step) ∧
    (s.config.infinite = false → 0 < s.total →
       getCurrentSlide (setCurrentSlide s i).1 ≤ lastValidIndex s) ∧
    (s.total = 0 → runOp op s = (s, [])) := by
  refine ⟨fun hm => ?_, fun hv => ?_,
          ⟨parsePositiveAttr_pos a.perViewAttr, parsePositiveAttr_pos a.stepAttr⟩,
          fun hinf htot => ?_, fun h0 => ?_⟩
  · unfold resolvedConfig
    rw [hm]
    rfl
  · simp only [parsePositiveAttr]
    rw [if_neg (by omega)]
  · unfold getCurrentSlide setCurrentSlide
    rw [commitIndex_currentIndex _ _ (by omega)]
    unfold setTarget
    rw [hinf]
    simp only [Bool.false_eq_true, if_false]
    exact Nat.min_le_right _ _
  · cases op <;>
      simp [runOp, nextOp, previousOp, setCurrentSlide, autoTick, commitIndex, h0]

/-- Witness for C7 at concrete inputs: malformed responsive JSON leaves the
base config; `per-view = -3` parses to `1`; `setCurrentSlide(99)` is
clamped; `next()` on an empty slider does nothing. -/
theorem slider_misuse_degrades_safely_witness :
    resolvedConfig attrsMalformed 700 = baseConfigOfAttrs attrsMalformed ∧
    parsePositiveAttr (some (-3)) = 1 ∧
    getCurrentSlide (setCurrentSlide stBase 99).1 ≤ lastValidIndex stBase ∧
    runOp SliderOp.next ⟨0, 0, cfgBase⟩ = (⟨0, 0, cfgBase⟩, []) :=
  ⟨(slider_misuse_degrades_safely attrsMalformed 700 (-3) stBase 99 SliderOp.next).1 rfl,
   (slider_misuse_degrades_safely attrsMalformed 700 (-3) stBase 99 SliderOp.next).2.1
     (by decide),
   (slider_misuse_degrades_safely attrsMalformed 700 (-3) stBase 99 SliderOp.next).2.2.2.1
     rfl (by decide),
   (slider_misuse_degrades_safely attrsMalformed 700 (-3) ⟨0, 0, cfgBase⟩ 99
     SliderOp.next).2.2.2.2 rfl⟩

/-! ## Layout height coordinator claims -/

/-- C8 counterexample: with a resolved config whose `flexibleHeight` is
`false`, `TPSliderSlideElement.connectedCallback` still attaches a resize
observer (one observer, not zero) whenever the `ResizeObserver` API is
available — the callback never consults the configuration. -/
theorem flexible_height_no_observer_refuted :
    cfgBase.flexibleHeight = false ∧ observersAttachedOnConnect cfgBase true = 1 := by
  decide

/-- C8 (amended): `connectedCallback` attaches a resize observer to every
slide whenever the `ResizeObserver` API is available, independently of
`flexibleHeight`; however, when `flexibleHeight = false` the resize
reaction performs no height write — the track state is untouched. -/
theorem slide_connect_always_observes (cfg : SliderConfig) (avail : Bool)
    (contentHeight : Nat) (track : TrackState) :
    (avail = true → observersAttachedOnConnect cfg avail = 1) ∧
    (cfg.flexibleHeight = false →
       handleResize cfg contentHeight track = track) := by
  constructor
  · intro h
    unfold observersAttachedOnConnect
    rw [if_pos h]
  · intro h
    unfold handleResize
    rw [h]
    simp

/-- Witness for the amended C8 at a concrete config with
`flexibleHeight = false`. -/
theorem slide_connect_always_observes_witness :
    observersAttachedOnConnect cfgBase true = 1 ∧
    handleResize cfgBase 120 ⟨some 40⟩ = ⟨some 40⟩ :=
  ⟨(slide_connect_always_observes cfgBase true 120 ⟨some 40⟩).1 rfl,
   (slide_connect_always_observes cfgBase true 120 ⟨some 40⟩).2 rfl⟩

/-! ## Multi-select highlight lemmas -/

lemma skipDisabledFrom_spec (opts : List MSOption) (i : Nat) :
    i ≤ skipDisabledFrom opts i ∧
    (i ≤ opts.length → skipDisabledFrom opts i ≤ opts.length) ∧
    (∀ o : MSOption, opts[skipDisabledFrom opts i]? = some o → o.disabled = false) ∧
    ((∀ (j : Nat) (o : MSOption), opts[j]? = some o → i ≤ j → o.disabled = true) →
       i ≤ opts.length → skipDisabledFrom opts i = opts.length) := by
  have key : ∀ (n : Nat), ∀ (i : Nat), opts.length - i ≤ n →
      i ≤ skipDisabledFrom opts i ∧
      (i ≤ opts.length → skipDisabledFrom opts i ≤ opts.length) ∧
      (∀ o : MSOption, opts[skipDisabledFrom opts i]? = some o → o.disabled = false) ∧
      ((∀ (j : Nat) (o : MSOption), opts[j]? = some o → i ≤ j → o.disabled = true) →
         i ≤ opts.length → skipDisabledFrom opts i = opts.length) := by
    intro n
    induction n with
    | zero =>
      intro i hn
      have hnone : opts[i]? = none := List.getElem?_eq_none (by omega)
      unfold skipDisabledFrom
      rw [dif_neg (by omega : ¬ i < opts.length)]
      refine ⟨le_refl i, fun h => h, fun o ho => ?_, fun _ h => by omega⟩
      rw [hnone] at ho
      cases ho
    | succ n ih =>
      intro i hn
      by_cases hi : i < opts.length
      · have hsome : opts[i]? = some (opts.get ⟨i, hi⟩) := by
          simp [List.getElem?_eq_getElem, hi]
        unfold skipDisabledFrom
        rw [dif_pos hi]
        by_cases hd : (opts.get ⟨i, hi⟩).disabled
        · rw [if_pos hd]
          obtain ⟨q1, q2, q3, q4⟩ := ih (i + 1) (by omega)
          exact ⟨by omega, fun _ => q2 (by omega), q3,
            fun hall _ => q4 (fun j o ho hij => hall j o ho (by omega)) (by omega)⟩
        · rw [if_neg hd]
          have hdf : (opts.get ⟨i, hi⟩).disabled = false := by simpa using hd
          refine ⟨le_refl i, fun _ => by omega, fun o ho => ?_, fun hall _ => ?_⟩
          · rw [hsome] at ho
            have ho' : opts.get ⟨i, hi⟩ = o := by simpa using ho
            rw [← ho']
            exact hdf
          · exact absurd (hall i _ hsome (le_refl i)) (by rw [hdf]; simp)
      · have hnone : opts[i]? = none := List.getElem?_eq_none (by omega)
        unfold skipDisabledFrom
        rw [dif_neg hi]
        refine ⟨le_refl i, fun h => h, fun o ho => ?_, fun _ h => by omega⟩
        rw [hnone] at ho
        cases ho
  exact key (opts.length - i) i (le_refl _)

lemma skipDisabledDown_spec (opts : List MSOption) (i : Int)
    (hlt : i < (opts.length : Int)) :
    ∃ r, skipDisabledDown opts i = some r ∧ r ≤ i ∧
      (0 ≤ r → r.toNat < opts.length) ∧
      (0 ≤ r → ∀ o : MSOption, opts[r.toNat]? = some o → o.disabled = false) ∧
      ((∀ (j : Nat) (o : MSOption), opts[j]? = some o → (j : Int) ≤ i →
          o.disabled = true) → r < 0) := by
  have key : ∀ (n : Nat), ∀ (i : Int), (i + 1).toNat ≤ n → i < (opts.length : Int) →
      ∃ r, skipDisabledDown opts i = some r ∧ r ≤ i ∧
        (0 ≤ r → r.toNat < opts.length) ∧
        (0 ≤ r → ∀ o : MSOption, opts[r.toNat]? = some o → o.disabled = false) ∧
        ((∀ (j : Nat) (o : MSOption), opts[j]? = some o → (j : Int) ≤ i →
            o.disabled = true) → r < 0) := by
    intro n
    induction n with
    | zero =>
      intro i hn _
      have hi : i < 0 := by omega
      refine ⟨i, ?_, le_refl i, fun h0 => absurd h0 (by omega),
        fun h0 => absurd h0 (by omega), fun _ => hi⟩
      unfold skipDisabledDown
      rw [dif_pos hi]
    | succ n ih =>
      intro i hn hilen
      by_cases hi : i < 0
      · refine ⟨i, ?_, le_refl i, fun h0 => absurd h0 (by omega),
          fun h0 => absurd h0 (by omega), fun _ => hi⟩
        unfold skipDisabledDown
        rw [dif_pos hi]
      · have hitn : i.toNat < opts.length := by omega
        have hsome : opts[i.toNat]? = some (opts.get ⟨i.toNat, hitn⟩) := by
          simp [List.getElem?_eq_getElem, hitn]
        by_cases hd : (opts.get ⟨i.toNat, hitn⟩).disabled
        · have hd' : opts[i.toNat].disabled = true := by simpa using hd
          obtain ⟨r, hr, hrle, hrin, hrnd, hrall⟩ := ih (i - 1) (by omega) (by omega)
          refine ⟨r, ?_, by omega, hrin, hrnd,
            fun hall => hrall (fun j o ho hji => hall j o ho (by omega))⟩
          unfold skipDisabledDown
          rw [dif_neg hi, hsome]
          simp [hd', hr]
        · have hdf : (opts.get ⟨i.toNat, hitn⟩).disabled = false := by simpa using hd
          have hdf' : opts[i.toNat].disabled = false := by simpa using hdf
          refine ⟨i, ?_, le_refl i, fun _ => hitn, fun _ o ho => ?_,
            fun hall => absurd (hall i.toNat _ hsome (by omega)) (by rw [hdf]; simp)⟩
          · unfold skipDisabledDown
            rw [dif_neg hi, hsome]
            simp [hdf']
          · rw [hsome] at ho
            have ho' : opts.get ⟨i.toNat, hitn⟩ = o := by simpa using ho
            rw [← ho']
            exact hdf
  exact key (i + 1).toNat i (le_refl _) hlt

lemma writeHighlightAt_pos (opts : List MSOption) (i : Int) (b : Bool)
    (h0 : 0 ≤ i) (h1 : i.toNat < opts.length) :
    writeHighlightAt opts i b =
      some (opts.set i.toNat { opts.get ⟨i.toNat, h1⟩ with highlighted := b }) := by
  unfold writeHighlightAt
  rw [dif_pos ⟨h0, h1⟩]

lemma writeHighlightAt_natCast (opts : List MSOption) (k : Nat) (b : Bool)
    (hk : k < opts.length) :
    writeHighlightAt opts (k : Int) b =
      some (opts.set k { opts.get ⟨k, hk⟩ with highlighted := b }) :=
  writeHighlightAt_pos opts (k : Int) b (Int.natCast_nonneg k) (by simpa using hk)

lemma set_highlight_pointwise (opts : List MSOption) (k : Nat) (hk : k < opts.length)
    (hknd : (opts.get ⟨k, hk⟩).disabled = false) :
    ∀ (j : Nat) (o' o : MSOption),
      (opts.set k { opts.get ⟨k, hk⟩ with highlighted := true })[j]? = some o' →
      opts[j]? = some o → o'.highlighted = true → o.highlighted = false →
      o'.disabled = false := by
  intro j o' o hj' hj h1 h2
  rw [List.getElem?_set] at hj'
  by_cases hjk : k = j
  · rw [if_pos hjk, if_pos hk] at hj'
    have ho : o' = { opts.get ⟨k, hk⟩ with highlighted := true } := by
      simpa using hj'.symm
    rw [ho]
    exact hknd
  · rw [if_neg hjk, hj] at hj'
    have ho : o' = o := by simpa using hj'.symm
    rw [ho] at h1
    rw [h2] at h1
    exact absurd h1 (by simp)

lemma set_set_highlight_pointwise (opts : List MSOption) (curN k : Nat)
    (hcn : curN < opts.length) (hk : k < opts.length) (hne : curN ≠ k)
    (hknd : (opts.get ⟨k, hk⟩).disabled = false)
    (hk1 : k < (opts.set curN { opts.get ⟨curN, hcn⟩ with highlighted := false }).length) :
    ∀ (j : Nat) (o' o : MSOption),
      ((opts.set curN { opts.get ⟨curN, hcn⟩ with highlighted := false }).set k
        { (opts.set curN { opts.get ⟨curN, hcn⟩ with highlighted := false }).get ⟨k, hk1⟩
          with highlighted := true })[j]? = some o' →
      opts[j]? = some o → o'.highlighted = true → o.highlighted = false →
      o'.disabled = false := by
  intro j o' o hj' hj h1 h2
  rw [List.getElem?_set] at hj'
  by_cases hjk : k = j
  · rw [if_pos hjk, if_pos hk1] at hj'
    have ho : o' =
        { (opts.set curN { opts.get ⟨curN, hcn⟩ with highlighted := false }).get ⟨k, hk1⟩
          with highlighted := true } := by
      simpa using hj'.symm
    rw [ho]
    show ((opts.set curN { opts.get ⟨curN, hcn⟩ with highlighted := false }).get
      ⟨k, hk1⟩).disabled = false
    have hget : (opts.set curN { opts.get ⟨curN, hcn⟩ with highlighted := false }).get
        ⟨k, hk1⟩ = opts.get ⟨k, hk⟩ := by
      simp [List.get_eq_getElem, List.getElem_set, hne]
    rw [hget]
    exact hknd
  · rw [if_neg hjk] at hj'
    rw [List.getElem?_set] at hj'
    by_cases hjc : curN = j
    · rw [if_pos hjc, if_pos hcn] at hj'
      have ho : o' = { opts.get ⟨curN, hcn⟩ with highlighted := false } := by
        simpa using hj'.symm
      rw [ho] at h1
      simp at h1
    · rw [if_neg hjc, hj] at hj'
      have ho : o' = o := by simpa using hj'.symm
      rw [ho] at h1
      rw [h2] at h1
      exact absurd h1 (by simp)

lemma highlightNext_safe (s : MSState)
    (hlo : -1 ≤ s.currentlyHighlightedOption)
    (hhi : s.currentlyHighlightedOption < (s.options.length : Int)) :
    HighlightOutcomeSafe s (highlightNextOption s) := by
  obtain ⟨g1, g2, g3, -⟩ :=
    skipDisabledFrom_spec s.options (s.currentlyHighlightedOption + 1).toNat
  simp only [highlightNextOption]
  rw [if_neg (by omega : ¬ (s.currentlyHighlightedOption + 1 < 0))]
  by_cases hkl : skipDisabledFrom s.options (s.currentlyHighlightedOption + 1).toNat
      = s.options.length
  · rw [if_pos hkl]
    refine ⟨s, rfl, rfl, hlo, hhi, fun j o' o hj' hj h1 h2 => ?_⟩
    rw [hj] at hj'
    have ho : o' = o := by simpa using hj'.symm
    rw [ho] at h1
    rw [h2] at h1
    exact absurd h1 (by simp)
  · rw [if_neg hkl]
    have hstart : (s.currentlyHighlightedOption + 1).toNat ≤ s.options.length := by omega
    have hkle := g2 hstart
    have hklt : skipDisabledFrom s.options (s.currentlyHighlightedOption + 1).toNat
        < s.options.length := by omega
    have hknd : (s.options.get
        ⟨skipDisabledFrom s.options (s.currentlyHighlightedOption + 1).toNat,
         hklt⟩).disabled = false :=
      g3 _ (by simp [List.getElem?_eq_getElem, hklt])
    by_cases hc : s.currentlyHighlightedOption = -1
    · rw [if_neg (by simp [hc] : ¬ s.currentlyHighlightedOption ≠ -1)]
      simp only []
      rw [writeHighlightAt_natCast s.options _ true hklt]
      simp only []
      refine ⟨_, rfl, by simp,
        le_trans (by omega : (-1 : Int) ≤ 0) (Int.natCast_nonneg _), ?_, ?_⟩
      · simp only [List.length_set]
        omega
      · exact set_highlight_pointwise s.options _ hklt hknd
    · rw [if_pos hc]
      have hc0 : 0 ≤ s.currentlyHighlightedOption := by omega
      have hcn : s.currentlyHighlightedOption.toNat < s.options.length := by omega
      rw [writeHighlightAt_pos s.options _ false hc0 hcn]
      simp only []
      have hk1 : skipDisabledFrom s.options (s.currentlyHighlightedOption + 1).toNat
          < (s.options.set s.currentlyHighlightedOption.toNat
              { s.options.get ⟨s.currentlyHighlightedOption.toNat, hcn⟩
                with highlighted := false }).length := by
        simpa using hklt
      rw [writeHighlightAt_natCast _ _ true hk1]
      simp only []
      refine ⟨_, rfl, by simp,
        le_trans (by omega : (-1 : Int) ≤ 0) (Int.natCast_nonneg _), ?_, ?_⟩
      · simp only [List.length_set]
        omega
      · exact set_set_highlight_pointwise s.options _ _ hcn hklt (by omega) hknd hk1

lemma highlightPrev_safe (s : MSState)
    (hlo : -1 ≤ s.currentlyHighlightedOption)
    (hhi : s.currentlyHighlightedOption < (s.options.length : Int)) :
    HighlightOutcomeSafe s (highlightPreviousOption s) := by
  obtain ⟨r, hr, hrle, hrin, hrnd, -⟩ :=
    skipDisabledDown_spec s.options (s.currentlyHighlightedOption - 1) (by omega)
  simp only [highlightPreviousOption]
  rw [hr]
  simp only []
  by_cases hrneg : r < 0
  · rw [if_pos hrneg]
    refine ⟨s, rfl, rfl, hlo, hhi, fun j o' o hj' hj h1 h2 => ?_⟩
    rw [hj] at hj'
    have ho : o' = o := by simpa using hj'.symm
    rw [ho] at h1
    rw [h2] at h1
    exact absurd h1 (by simp)
  · rw [if_neg hrneg]
    have hr0 : 0 ≤ r := by omega
    have hrlt : r.toNat < s.options.length := hrin hr0
    have hrd : (s.options.get ⟨r.toNat, hrlt⟩).disabled = false :=
      hrnd hr0 _ (by simp [List.getElem?_eq_getElem, hrlt])
    have hcge : 1 ≤ s.currentlyHighlightedOption := by omega
    rw [if_pos (by omega : s.currentlyHighlightedOption ≠ 0)]
    have hc0 : 0 ≤ s.currentlyHighlightedOption := by omega
    have hcn : s.currentlyHighlightedOption.toNat < s.options.length := by omega
    rw [writeHighlightAt_pos s.options _ false hc0 hcn]
    simp only []
    have hrn1 : r.toNat < (s.options.set s.currentlyHighlightedOption.toNat
        { s.options.get ⟨s.currentlyHighlightedOption.toNat, hcn⟩
          with highlighted := false }).length := by
      simpa using hrlt
    rw [writeHighlightAt_pos _ r true hr0 hrn1]
    simp only []
    refine ⟨_, rfl, by simp, le_trans (by omega : (-1 : Int) ≤ 0) hr0, ?_, ?_⟩
    · simp only [List.length_set]
      omega
    · exact set_set_highlight_pointwise s.options _ r.toNat hcn hrlt (by omega) hrd hrn1

lemma highlightNext_noop (s : MSState)
    (hlo : -1 ≤ s.currentlyHighlightedOption)
    (hhi : s.currentlyHighlightedOption < (s.options.length : Int))
    (hall : ∀ (j : Nat) (o : MSOption), s.options[j]? = some o →
      s.currentlyHighlightedOption < (j : Int) → o.disabled = true) :
    highlightNextOption s = some s := by
  obtain ⟨-, -, -, g4⟩ :=
    skipDisabledFrom_spec s.options (s.currentlyHighlightedOption + 1).toNat
  have hk : skipDisabledFrom s.options (s.currentlyHighlightedOption + 1).toNat
      = s.options.length :=
    g4 (fun j o ho hij => hall j o ho (by omega)) (by omega)
  simp only [highlightNextOption]
  rw [if_neg (by omega : ¬ (s.currentlyHighlightedOption + 1 < 0)), if_pos hk]

lemma highlightPrev_noop (s : MSState)
    (hhi : s.currentlyHighlightedOption < (s.options.length : Int))
    (hall : ∀ (j : Nat) (o : MSOption), s.options[j]? = some o →
      (j : Int) < s.currentlyHighlightedOption → o.disabled = true) :
    highlightPreviousOption s = some s := by
  obtain ⟨r, hr, hrle, -, -, hrall⟩ :=
    skipDisabledDown_spec s.options (s.currentlyHighlightedOption - 1) (by omega)
  have hrneg : r < 0 := hrall (fun j o ho hji => hall j o ho (by omega))
  simp only [highlightPreviousOption]
  rw [hr]
  simp only []
  rw [if_pos hrneg]

/-- C9 counterexample: the unconditional safety claim fails on stale states
the component can reach.  `currentlyHighlightedOption` is reset only by
`unHighlightAllOptions` (close/Escape); the MutationObserver →
`initialize()` path that supports dynamic option changes never resets it,
and the `:not([hidden="yes"])` query shrinks when options are hidden by
search filtering while the dropdown stays open.  With the field stuck at
`3` over a one-option list, `highlightNextOption` reaches
`options[3].removeAttribute` (line 349) — an out-of-bounds access that
throws (`none` in the model); with the field at `5` over a two-option list,
the backward skip loop of `highlightPreviousOption` reads `options[4]`
(line 377) and throws likewise. -/
theorem multi_select_highlight_stale_refuted :
    highlightNextOption ⟨3, [optA]⟩ = none ∧
    highlightPreviousOption ⟨5, [optA, optB]⟩ = none := by
  constructor
  · simp [highlightNextOption, skipDisabledFrom, writeHighlightAt, optA]
  · simp [highlightPreviousOption, skipDisabledDown, writeHighlightAt, optA, optB]

/-- C9 (amended): starting from a highlight state whose field
`currentlyHighlightedOption` lies in `[-1, options.length)` — as it does
initially and after every one of these calls on an unchanged option list —
`highlightNextOption` and `highlightPreviousOption` never access the
non-hidden option list out of bounds (they return `some`, and the bound
stays valid for the next call), the `highlighted` attribute is only ever
newly set on an option whose `disabled` attribute is not `yes`, and when no
eligible option exists in the requested direction the state — the field and
every option's attributes — is returned unchanged.  When the list has
shrunk below the stored index, the call instead throws on an out-of-bounds
access, as the counterexample shows. -/
theorem multi_select_highlight_safety (s : MSState)
    (hlo : -1 ≤ s.currentlyHighlightedOption)
    (hhi : s.currentlyHighlightedOption < (s.options.length : Int)) :
    HighlightOutcomeSafe s (highlightNextOption s) ∧
    HighlightOutcomeSafe s (highlightPreviousOption s) ∧
    ((∀ (j : Nat) (o : MSOption), s.options[j]? = some o →
        s.currentlyHighlightedOption < (j : Int) → o.disabled = true) →
      highlightNextOption s = some s) ∧
    ((∀ (j : Nat) (o : MSOption), s.options[j]? = some o →
        (j : Int) < s.currentlyHighlightedOption → o.disabled = true) →
      highlightPreviousOption s = some s) :=
  ⟨highlightNext_safe s hlo hhi, highlightPrev_safe s hlo hhi,
   fun hall => highlightNext_noop s hlo hhi hall,
   fun hall => highlightPrev_noop s hhi hall⟩

/-- Witness for C9 on a concrete three-option list (middle option
disabled), starting from the initial state `currentlyHighlightedOption =
-1`: the next-highlight call is safe, and the previous-highlight call (no
eligible option before `-1`) returns the state unchanged. -/
theorem multi_select_highlight_safety_witness :
    HighlightOutcomeSafe msStart (highlightNextOption msStart) ∧
    highlightPreviousOption msStart = some msStart :=
  ⟨(multi_select_highlight_safety msStart (by decide) (by decide)).1,
   (multi_select_highlight_safety msStart (by decide) (by decide)).2.2.2
     (fun j o _ hji => absurd (show (j : Int) < -1 from hji) (by omega))⟩

/-- C10: in single-select mode (`multiple` attribute equal to `no`),
`select(value)` unselects everything first, so afterwards an option carries
`selected = yes` only if its `value` attribute equals the selected value and
its `disabled` attribute is not `yes`; in particular at most one distinct
value is selected. -/
theorem multi_select_single_mode_exclusive (el : MSElement) (value : String)
    (hm : el.multiple = some "no") :
    (∀ o ∈ (select el value).options, o.selected = true →
       o.value = some value ∧ o.disabled = false) ∧
    (∀ o1 ∈ (select el value).options, ∀ o2 ∈ (select el value).options,
       o1.selected = true → o2.selected = true → o1.value = o2.value) := by
  have main : ∀ o ∈ (select el value).options, o.selected = true →
      o.value = some value ∧ o.disabled = false := by
    intro o ho hsel
    unfold select at ho
    rw [if_pos hm] at ho
    by_cases hv : value = ""
    · rw [if_pos hv] at ho
      simp only [unSelectAllOptions, List.mem_map] at ho
      obtain ⟨p, hp, rfl⟩ := ho
      simp at hsel
    · rw [if_neg hv] at ho
      simp only [selectMatchingOptions, unSelectAllOptions, List.map_map,
        List.mem_map, Function.comp] at ho
      obtain ⟨p, hp, heq⟩ := ho
      by_cases hval : p.value = some value
      · by_cases hdis : p.disabled
        · rw [← heq] at hsel
          simp [hval, hdis] at hsel
        · rw [← heq] at hsel ⊢
          have hdis' : p.disabled = false := by simpa using hdis
          exact ⟨by simp [hval, hdis'], by simp [hval, hdis']⟩
      · rw [← heq] at hsel
        simp [hval] at hsel
  refine ⟨main, fun o1 h1 o2 h2 hs1 hs2 => ?_⟩
  rw [(main o1 h1 hs1).1, (main o2 h2 hs2).1]

/-- Witness for C10: on a concrete single-select element, after
`select("b")` the enabled option with value `b` — the only selected one —
indeed has value `b` and is not disabled. -/
theorem multi_select_single_mode_exclusive_witness :
    (⟨some "b", false, true, false⟩ : MSOption).value = some "b" ∧
    (⟨some "b", false, true, false⟩ : MSOption).disabled = false :=
  (multi_select_single_mode_exclusive elSingle "b" rfl).1
    ⟨some "b", false, true, false⟩ (by decide) (by decide)

end Travelopia
